import Mathlib

/-!
Shallow embedding of the agentcom capability-negotiation engine
(src/agentcom/endpoints/session_endpoint.py, src/agentcom/models/session.py,
src/agentcom/config.py, src/agentcom/registry.py) and proofs about the
claims of the specification.

Python optionals become `Option`, dictionaries with string keys become
association lists, and the two clock readings of `datetime.utcnow()` inside
`_generate_session_token` are passed in as explicit string parameters.
Raising `HTTPException` is modelled by returning `Except.error`.
-/

/-- WantedCapability (models/session.py). The free-form `constraints`
mapping is modelled with integer values, the only kind the negotiation
code compares numerically. -/
structure WantedCapability where
  name : String
  version : Option String := none
  constraints : Option (List (String × Int)) := none
deriving DecidableEq

/-- SessionPreferences (models/session.py). -/
structure SessionPreferences where
  transport : List String := ["http-json"]
  retry_strategy : String := "exponential"
  max_retries : Option Int := some 3
deriving DecidableEq

/-- SessionPolicy (models/session.py). -/
structure SessionPolicy where
  require_evidence : Bool := false
  conflict_resolution : String := "planner_wins"
deriving DecidableEq

/-- SessionMeta (models/session.py). -/
structure SessionMeta where
  trace_id : Option String := none
  correlation_id : Option String := none
deriving DecidableEq

/-- SessionRequest (models/session.py); `from_agent` is the wire field
named `from`. -/
structure SessionRequest where
  session_id : String
  from_agent : String
  intent : String
  participants : List String
  wanted_capabilities : List WantedCapability := []
  policy : Option SessionPolicy := some {}
  session_preferences : SessionPreferences := {}
  timeout_seconds : Option Int := some 180
  meta : Option SessionMeta := some {}
deriving DecidableEq

/-- AcceptedCapability (models/session.py). -/
structure AcceptedCapability where
  name : String
  version : String
  action_schema : Option String := none
  estimated_cost : Option (List (String × Int)) := none
  latency_p99_ms : Option Int := none
deriving DecidableEq

/-- RejectedCapability (models/session.py). -/
structure RejectedCapability where
  name : String
  reason : String
  supported_versions : Option (List String) := none
  details : Option String := none
deriving DecidableEq

/-- NegotiatedSession (models/session.py). -/
structure NegotiatedSession where
  timeout_seconds : Int
  transport : String
  retry_strategy : String
  max_retries : Int
deriving DecidableEq

/-- PolicyAck (models/session.py). -/
structure PolicyAck where
  require_evidence : Bool := false
  conflict_resolution : String := "planner_wins"
deriving DecidableEq

/-- ResponseSessionMeta (models/session.py). -/
structure ResponseSessionMeta where
  trace_id : Option String := none
  correlation_id : Option String := none
  responder_version : Option String := none
deriving DecidableEq

/-- SessionResponse (models/session.py). -/
structure SessionResponse where
  session_id : String
  status : String
  accepted_capabilities : List AcceptedCapability := []
  rejected_capabilities : List RejectedCapability := []
  negotiated_session : Option NegotiatedSession := none
  session_token : Option String := none
  policy_ack : Option PolicyAck := none
  meta : Option ResponseSessionMeta := none
  error : Option String := none
deriving DecidableEq

/-- AgentConfig (config.py). -/
structure AgentConfig where
  agent_id : String := "agent://unknown"
  version : String := "0.0.0"
  supported_transports : List String := ["http-json"]
deriving DecidableEq

/-- One entry of the REGISTERED_ENDPOINTS catalog (registry.py): a dict
whose keys read by the negotiation code are name, path, version and cost.
The decorator never stores a version key, hence the Option. -/
structure RegisteredCapability where
  name : Option String := none
  path : Option String := none
  version : Option String := none
  cost : Option (List (String × Int)) := none
deriving DecidableEq

/-- An HTTPException raised by the endpoint (status code and detail). -/
structure HttpError where
  status_code : Int
  detail : String
deriving DecidableEq

/-- Python truthiness of an optional string: None and the empty string are
falsy. -/
def truthyOptStr : Option String → Bool
  | none => false
  | some s => !s.isEmpty

/-- Python truthiness of an optional integer: None and 0 are falsy. -/
def truthyOptInt : Option Int → Bool
  | none => false
  | some v => v != 0

/-- Python `x or d` on an optional integer (None and 0 fall through to the
default). -/
def orInt (x : Option Int) (d : Int) : Int :=
  if truthyOptInt x then x.getD d else d

/-- Python `str(x)` on an optional string: None prints as "None". -/
def pyStr : Option String → String
  | none => "None"
  | some s => s

/-- A single-quote character, as a string. -/
def squote : String := String.singleton (Char.ofNat 39)

/-- Python `s.strip("/")`: remove leading and trailing slashes. -/
def stripSlashes (s : String) : String :=
  String.mk (((s.toList.dropWhile (fun c => c = '/')).reverse.dropWhile
    (fun c => c = '/')).reverse)

/-- Python `s.replace("/", "_")`. -/
def slashesToUnderscores (s : String) : String :=
  String.mk (s.toList.map (fun c => if c = '/' then '_' else c))

/-- Python `dict.get(key)` on a string-keyed mapping. -/
def dictGet (m : List (String × Int)) (key : String) : Option Int :=
  (m.find? (fun kv => kv.1 == key)).map (fun kv => kv.2)

/-- The `_match_version` helper of session_endpoint.py: returns True when no
constraint is requested, and otherwise also returns True (the source is an
explicit accept-all mock). -/
def match_version (required : Option String) (available : String) : Bool :=
  if !truthyOptStr required then true
  else true

/-- The `_find_capability` helper of session_endpoint.py: first catalog
entry whose name, or whose path stripped of outer slashes with the inner
slashes replaced by underscores, equals the wanted name. -/
def find_capability (name : String) : List RegisteredCapability → Option RegisteredCapability
  | [] => none
  | cap :: rest =>
    if cap.name = some name ∨ slashesToUnderscores (stripSlashes (pyStr cap.path)) = name
    then some cap
    else find_capability name rest

/-- The `_negotiate_capability` helper of session_endpoint.py: returns the
pair (accepted or none, rejected or none). -/
def negotiate_capability (wanted : WantedCapability)
    (registered : Option RegisteredCapability) :
    Option AcceptedCapability × Option RejectedCapability :=
  match registered with
  | none =>
    (none, some
      { name := wanted.name, reason := "capability_not_found",
        details := some ("Capability " ++ squote ++ wanted.name ++ squote
          ++ " is not available on this agent") })
  | some reg =>
    if truthyOptStr wanted.version
        ∧ match_version wanted.version (reg.version.getD "1.0.0") = false then
      (none, some
        { name := wanted.name, reason := "unsupported_version",
          supported_versions := some ["1.0.0", "1.1.0"],
          details := some ("Requested " ++ pyStr wanted.version
            ++ ", available 1.0.0-1.1.0") })
    else
      let constraints := wanted.constraints.getD []
      let max_latency := dictGet constraints "max_latency_ms"
      if truthyOptInt max_latency ∧ max_latency.getD 0 < 500 then
        (none, some
          { name := wanted.name, reason := "latency_constraint_violation",
            details := some ("Required latency " ++ toString (max_latency.getD 0)
              ++ "ms, but expected p99 is ~850ms") })
      else
        (some
          { name := wanted.name,
            version := reg.version.getD "1.0.0",
            action_schema := reg.path,
            estimated_cost := reg.cost,
            latency_p99_ms := some 850 }, none)

/-- The per-capability negotiation loop of session_endpoint (lines 169-180
of session_endpoint.py): one pass over wanted_capabilities, appending each
outcome to the accepted or the rejected list. -/
def negotiate_all (registry : List RegisteredCapability) :
    List WantedCapability → List AcceptedCapability × List RejectedCapability
  | [] => ([], [])
  | w :: ws =>
    let outcome := negotiate_capability w (find_capability w.name registry)
    let rest := negotiate_all registry ws
    (match outcome.1 with
      | some a => a :: rest.1
      | none => rest.1,
     match outcome.2 with
      | some r => r :: rest.2
      | none => rest.2)

/-- The session status decision of session_endpoint (lines 182-188). -/
def decide_status (wantedCount : Nat) (accepted : List AcceptedCapability)
    (rejected : List RejectedCapability) : String :=
  if accepted.length = wantedCount ∧ rejected = [] then "accepted"
  else if accepted ≠ [] then "partial"
  else "rejected"

/-- The transport selection loop of session_endpoint (lines 190-196), with
the supported list and the initial default as parameters; the endpoint
instantiates them with supported_transports and "http-json". -/
def select_transport (supported : List String) (dflt : String) : List String → String
  | [] => dflt
  | p :: ps => if supported.contains p then p else select_transport supported dflt ps

/-- The hard-coded supported transport list of session_endpoint (line 192). -/
def supported_transports : List String := ["http-json", "grpc", "nats"]

/-- JSON string escaping as json.dumps performs it for the quote and the
backslash (the only escapes the payloads built here can need). -/
def jsonEscape (s : String) : String :=
  String.join (s.toList.map (fun c =>
    if c = Char.ofNat 92 then String.mk [Char.ofNat 92, Char.ofNat 92]
    else if c = Char.ofNat 34 then String.mk [Char.ofNat 92, Char.ofNat 34]
    else String.singleton c))

/-- json.dumps of the token payload dict of `_generate_session_token`
(insertion order preserved). -/
def jsonPayload (session_id iat exp : String) : String :=
  "\x7b\"session_id\": \"" ++ jsonEscape session_id ++ "\", \"iat\": \""
    ++ jsonEscape iat ++ "\", \"exp\": \"" ++ jsonEscape exp ++ "\"\x7d"

/-- The base64 alphabet. -/
def b64Alphabet : List Char :=
  "ABCDEFGHIJKLMNOPQRSTUVWXYZabcdefghijklmnopqrstuvwxyz0123456789+/".toList

/-- Character of the base64 alphabet at a 6-bit index. -/
def b64Char (n : Nat) : Char := b64Alphabet.getD n 'A'

/-- base64.b64encode over a list of byte values. -/
def b64encodeBytes : List Nat → List Char
  | [] => []
  | [a] => [b64Char (a / 4), b64Char (a % 4 * 16), '=', '=']
  | [a, b] => [b64Char (a / 4), b64Char (a % 4 * 16 + b / 16), b64Char (b % 16 * 4), '=']
  | a :: b :: c :: rest =>
    b64Char (a / 4) :: b64Char (a % 4 * 16 + b / 16) :: b64Char (b % 16 * 4 + c / 64)
      :: b64Char (c % 64) :: b64encodeBytes rest

/-- base64.b64encode of the UTF-8 bytes of a string. -/
def b64encode (s : String) : String :=
  String.mk (b64encodeBytes (s.toUTF8.toList.map (fun b => b.toNat)))

/-- The `_generate_session_token` helper of session_endpoint.py. The iat and
exp timestamps produced there by datetime.utcnow (the second one shifted by
timeout_seconds) are passed in as parameters. -/
def generate_session_token (session_id : String) (timeout_seconds : Int)
    (iat exp : String) : String :=
  "eyJhbGciOiJIUzI1NiIsInR5cCI6IkpXVCJ9." ++ b64encode (jsonPayload session_id iat exp)
    ++ ".mock_signature"

/-- The body of the POST /session handler after the participant check
passed (lines 169-232 of session_endpoint.py). -/
def build_response (config : AgentConfig) (registry : List RegisteredCapability)
    (iat exp : String) (request : SessionRequest) : SessionResponse :=
  let caps := negotiate_all registry request.wanted_capabilities
  let accepted_caps := caps.1
  let rejected_caps := caps.2
  let status := decide_status request.wanted_capabilities.length accepted_caps rejected_caps
  let selected_transport :=
    select_transport supported_transports "http-json"
      (if request.session_preferences.transport = [] then ["http-json"]
       else request.session_preferences.transport)
  let negotiated_timeout := min (orInt request.timeout_seconds 180) 180
  let negotiated : NegotiatedSession :=
    { timeout_seconds := negotiated_timeout,
      transport := selected_transport,
      retry_strategy := if request.session_preferences.retry_strategy.isEmpty
        then "exponential" else request.session_preferences.retry_strategy,
      max_retries := orInt request.session_preferences.max_retries 3 }
  let policy_ack : PolicyAck :=
    { require_evidence := match request.policy with
        | some pol => pol.require_evidence
        | none => false,
      conflict_resolution := match request.policy with
        | some pol => pol.conflict_resolution
        | none => "planner_wins" }
  let token := generate_session_token request.session_id negotiated_timeout iat exp
  let response_meta : ResponseSessionMeta :=
    { trace_id := match request.meta with
        | some m => m.trace_id
        | none => none,
      correlation_id := match request.meta with
        | some m => m.correlation_id
        | none => none,
      responder_version := some "agent-proto-1.0.4" }
  { session_id := request.session_id,
    status := status,
    accepted_capabilities := accepted_caps,
    rejected_capabilities := rejected_caps,
    negotiated_session := some negotiated,
    session_token := some token,
    policy_ack := some policy_ack,
    meta := some response_meta,
    error := if status = "rejected" then some "No compatible capabilities found" else none }

/-- The POST /session handler (session_endpoint, lines 139-232): the
participant check raises a 400 HTTPException, every other path returns the
built response. The global registry, the agent configuration and the two
clock readings are explicit parameters. -/
def session_endpoint (config : AgentConfig) (registry : List RegisteredCapability)
    (iat exp : String) (request : SessionRequest) : Except HttpError SessionResponse :=
  if config.agent_id ∉ request.participants then
    Except.error
      { status_code := 400,
        detail := "Agent " ++ config.agent_id ++ " is not listed as a participant" }
  else
    Except.ok (build_response config registry iat exp request)

/-- Observation: status of a transport-level result, when it is a response. -/
def respStatus : Except HttpError SessionResponse → Option String
  | Except.ok r => some r.status
  | Except.error _ => none

/-- Observation: whether a transport-level result carries a session token. -/
def respTokenPresent : Except HttpError SessionResponse → Bool
  | Except.ok r => r.session_token.isSome
  | Except.error _ => false

/-- Observation: whether a transport-level result carries negotiated
session parameters. -/
def respNegotiatedPresent : Except HttpError SessionResponse → Bool
  | Except.ok r => r.negotiated_session.isSome
  | Except.error _ => false

/-- Observation: the negotiated timeout of a transport-level result. -/
def respTimeout : Except HttpError SessionResponse → Option Int
  | Except.ok r => r.negotiated_session.map (fun ns => ns.timeout_seconds)
  | Except.error _ => none

/-- Example agent configuration used in the concrete runs below. -/
def exCfg : AgentConfig := { agent_id := "agent://a" }

/-- Example catalog with one registered capability. -/
def exReg : List RegisteredCapability :=
  [{ name := some "translate_text", path := some "/translate/text",
     cost := some [("estimate", 5)] }]

/-- Example wanted capability whose name is in no catalog, carrying a
version constraint and extra constraints. -/
def c4w : WantedCapability :=
  { name := "translate_text", version := some ">=1.0",
    constraints := some [("max_latency_ms", 100)] }

/-- Example request wanting one capability that exists and one that does
not. -/
def reqMixed : SessionRequest :=
  { session_id := "s-mixed", from_agent := "agent://b", intent := "demo",
    participants := ["agent://a", "agent://b"],
    wanted_capabilities := [{ name := "translate_text" }, { name := "nope" }] }

/-- Example request wanting a single capability that no catalog offers. -/
def reqMissing : SessionRequest :=
  { session_id := "s-missing", from_agent := "agent://b", intent := "demo",
    participants := ["agent://a", "agent://b"],
    wanted_capabilities := [{ name := "missing" }] }

/-- Example request whose participants do not include the responder. -/
def reqAbsent : SessionRequest :=
  { session_id := "s-absent", from_agent := "agent://b", intent := "demo",
    participants := ["agent://b", "agent://c"] }

/-- Example request with a requested timeout of 0 seconds. -/
def reqT0 : SessionRequest :=
  { session_id := "s-t0", from_agent := "agent://b", intent := "demo",
    participants := ["agent://a"], timeout_seconds := some 0 }

/-- Example request with a requested timeout of 300 seconds. -/
def reqT300 : SessionRequest :=
  { session_id := "s-t300", from_agent := "agent://b", intent := "demo",
    participants := ["agent://a"], timeout_seconds := some 300 }

/-- Example request preferring grpc before http-json. -/
def reqPrefs : SessionRequest :=
  { session_id := "s-prefs", from_agent := "agent://b", intent := "demo",
    participants := ["agent://a"],
    session_preferences := { transport := ["grpc", "http-json"] } }

/-- Response built for reqMixed. -/
def respMixed : SessionResponse := build_response exCfg exReg "t0" "t1" reqMixed

/-- Response built for reqMissing. -/
def respMissing : SessionResponse := build_response exCfg [] "t0" "t1" reqMissing

/-- Response built for reqT300. -/
def respT300 : SessionResponse := build_response exCfg [] "t0" "t1" reqT300

/-- Negotiated session of respT300. -/
def nsT300 : NegotiatedSession :=
  { timeout_seconds := 180, transport := "http-json",
    retry_strategy := "exponential", max_retries := 3 }

/-- Response built for reqPrefs. -/
def respPrefs : SessionResponse := build_response exCfg [] "t0" "t1" reqPrefs

/-- Negotiated session of respPrefs. -/
def nsPrefs : NegotiatedSession :=
  { timeout_seconds := 180, transport := "grpc",
    retry_strategy := "exponential", max_retries := 3 }

theorem negotiate_capability_cases (w : WantedCapability) (reg : Option RegisteredCapability) :
    (∃ a, negotiate_capability w reg = (some a, none) ∧ a.name = w.name) ∨
    (∃ r, negotiate_capability w reg = (none, some r) ∧ r.name = w.name) := by
  unfold negotiate_capability
  cases reg with
  | none => right; exact ⟨_, rfl, rfl⟩
  | some reg =>
    dsimp only
    split_ifs with h1 h2
    · right; exact ⟨_, rfl, rfl⟩
    · right; exact ⟨_, rfl, rfl⟩
    · left; exact ⟨_, rfl, rfl⟩

theorem negotiate_all_names_perm (registry : List RegisteredCapability) :
    ∀ ws : List WantedCapability,
      ((negotiate_all registry ws).1.map (fun a => a.name)
        ++ (negotiate_all registry ws).2.map (fun r => r.name)).Perm
        (ws.map (fun w => w.name)) := by
  intro ws
  induction ws with
  | nil => simp [negotiate_all]
  | cons w ws ih =>
    rcases negotiate_capability_cases w (find_capability w.name registry) with
      ⟨a, ha, hname⟩ | ⟨r, hr, hname⟩
    · simp only [negotiate_all, ha, List.map_cons, List.cons_append]
      rw [hname]
      exact ih.cons w.name
    · simp only [negotiate_all, hr, List.map_cons]
      refine List.Perm.trans List.perm_middle ?_
      rw [hname]
      exact ih.cons w.name

theorem negotiate_all_length (registry : List RegisteredCapability)
    (ws : List WantedCapability) :
    (negotiate_all registry ws).1.length + (negotiate_all registry ws).2.length
      = ws.length := by
  have h := (negotiate_all_names_perm registry ws).length_eq
  simpa using h

theorem session_endpoint_ok (config : AgentConfig) (registry : List RegisteredCapability)
    (iat exp : String) (request : SessionRequest) (resp : SessionResponse)
    (h : session_endpoint config registry iat exp request = Except.ok resp) :
    resp = build_response config registry iat exp request := by
  unfold session_endpoint at h
  split at h
  · exact Except.noConfusion h
  · injection h with h
    exact h.symm

theorem build_response_accepted (config : AgentConfig) (registry : List RegisteredCapability)
    (iat exp : String) (request : SessionRequest) :
    (build_response config registry iat exp request).accepted_capabilities
      = (negotiate_all registry request.wanted_capabilities).1 := rfl

theorem build_response_rejected (config : AgentConfig) (registry : List RegisteredCapability)
    (iat exp : String) (request : SessionRequest) :
    (build_response config registry iat exp request).rejected_capabilities
      = (negotiate_all registry request.wanted_capabilities).2 := rfl

theorem build_response_status (config : AgentConfig) (registry : List RegisteredCapability)
    (iat exp : String) (request : SessionRequest) :
    (build_response config registry iat exp request).status
      = decide_status request.wanted_capabilities.length
          (negotiate_all registry request.wanted_capabilities).1
          (negotiate_all registry request.wanted_capabilities).2 := rfl

theorem build_response_error (config : AgentConfig) (registry : List RegisteredCapability)
    (iat exp : String) (request : SessionRequest) :
    (build_response config registry iat exp request).error
      = (if (build_response config registry iat exp request).status = "rejected"
         then some "No compatible capabilities found" else none) := rfl

theorem build_response_token (config : AgentConfig) (registry : List RegisteredCapability)
    (iat exp : String) (request : SessionRequest) :
    (build_response config registry iat exp request).session_token.isSome = true := rfl

theorem build_response_negotiated (config : AgentConfig) (registry : List RegisteredCapability)
    (iat exp : String) (request : SessionRequest) :
    (build_response config registry iat exp request).negotiated_session
      = some
        { timeout_seconds := min (orInt request.timeout_seconds 180) 180,
          transport := select_transport supported_transports "http-json"
            (if request.session_preferences.transport = [] then ["http-json"]
             else request.session_preferences.transport),
          retry_strategy := if request.session_preferences.retry_strategy.isEmpty
            then "exponential" else request.session_preferences.retry_strategy,
          max_retries := orInt request.session_preferences.max_retries 3 } := rfl

theorem decide_status_spec (n : Nat) (A : List AcceptedCapability)
    (R : List RejectedCapability) (hlen : A.length + R.length = n) :
    (decide_status n A R = "accepted" ↔ A.length = n ∧ R = [])
    ∧ (decide_status n A R = "partial" ↔ A ≠ [] ∧ R ≠ [])
    ∧ (n ≠ 0 → (decide_status n A R = "rejected" ↔ A = []))
    ∧ (n = 0 → decide_status n A R = "accepted") := by
  rcases R with _ | ⟨r, R⟩
  · have hA : A.length = n := by simpa using hlen
    have hst : decide_status n A [] = "accepted" := if_pos ⟨hA, rfl⟩
    refine ⟨?_, ?_, ?_, fun _ => hst⟩
    · rw [hst]; exact iff_of_true rfl ⟨hA, rfl⟩
    · rw [hst]; exact iff_of_false (by decide) (fun hc => hc.2 rfl)
    · intro hn
      rw [hst]
      refine iff_of_false (by decide) (fun hc => hn ?_)
      rw [← hA, hc]
      rfl
  · have hcond : ¬ (A.length = n ∧ (r :: R) = ([] : List RejectedCapability)) := by
      rintro ⟨-, hc⟩
      exact List.noConfusion hc
    rcases A with _ | ⟨a, A⟩
    · have hst : decide_status n [] (r :: R) = "rejected" := by
        unfold decide_status
        rw [if_neg hcond, if_neg (by simp)]
      have hn : n ≠ 0 := by
        simp only [List.length_nil, List.length_cons, Nat.zero_add] at hlen
        omega
      refine ⟨?_, ?_, fun _ => ?_, fun h0 => absurd h0 hn⟩
      · rw [hst]
        exact iff_of_false (by decide) (fun hc => List.noConfusion hc.2)
      · rw [hst]
        exact iff_of_false (by decide) (fun hc => hc.1 rfl)
      · rw [hst]
        exact iff_of_true rfl rfl
    · have hlt : (a :: A).length ≠ n := by
        simp only [List.length_cons] at hlen ⊢
        omega
      have hcond2 : ¬ ((a :: A).length = n ∧ (r :: R) = ([] : List RejectedCapability)) :=
        fun hc => hlt hc.1
      have hst : decide_status n (a :: A) (r :: R) = "partial" := by
        unfold decide_status
        rw [if_neg hcond2, if_pos (by simp)]
      refine ⟨?_, ?_, fun _ => ?_, fun h0 => ?_⟩
      · rw [hst]
        exact iff_of_false (by decide) (fun hc => hlt hc.1)
      · rw [hst]
        exact iff_of_true rfl ⟨by simp, by simp⟩
      · rw [hst]
        exact iff_of_false (by decide) (by simp)
      · exfalso
        rw [h0] at hlen
        simp only [List.length_cons] at hlen
        omega

theorem select_transport_eq_find (supported : List String) (dflt : String) :
    ∀ prefs : List String,
      select_transport supported dflt prefs
        = ((prefs.find? (fun p => supported.contains p)).getD dflt) := by
  intro prefs
  induction prefs with
  | nil => rfl
  | cons p ps ih =>
    unfold select_transport
    by_cases hc : supported.contains p = true
    · rw [if_pos hc, List.find?_cons_of_pos _ hc]
      rfl
    · rw [if_neg hc, List.find?_cons_of_neg _ hc, ih]

/-- C1: negotiating any wanted capability against the catalog yields exactly
one of an AcceptedCapability or a RejectedCapability: never both and never
neither. -/
theorem c1_negotiate_exactly_one (w : WantedCapability)
    (registry : List RegisteredCapability) :
    ((negotiate_capability w (find_capability w.name registry)).1.isSome
      ∧ (negotiate_capability w (find_capability w.name registry)).2 = none)
    ∨ ((negotiate_capability w (find_capability w.name registry)).1 = none
      ∧ (negotiate_capability w (find_capability w.name registry)).2.isSome) := by
  rcases negotiate_capability_cases w (find_capability w.name registry) with
    ⟨a, ha, -⟩ | ⟨r, hr, -⟩
  · left
    rw [ha]
    exact ⟨rfl, rfl⟩
  · right
    rw [hr]
    exact ⟨rfl, rfl⟩

/-- C2 (code bug): the version matcher of the code returns true on the
constraint ">=1.0,<2.0" against available version "2.0.0", where the claim
requires false; the source is an explicit accept-all mock that contradicts
its own docstring and the range semantics of the spec. -/
theorem c2_match_version_accepts_all :
    match_version none "1.5.0" = true
    ∧ match_version (some ">=1.0,<2.0") "1.5.0" = true
    ∧ match_version (some ">=1.0,<2.0") "2.0.0" = true :=
  ⟨rfl, rfl, rfl⟩

/-- C3 (code bug): the code advertises a known p99 latency of 850 ms, so by
the claim a wanted capability requiring max_latency_ms = 600 must fail the
constraint check; the code accepts it because its check compares against
500, and it also skips a max_latency_ms = 0 constraint by truthiness, while
it does reject a 400 ms requirement. -/
theorem c3_latency_check_divergence :
    (negotiate_capability
        { name := "translate_text", constraints := some [("max_latency_ms", 600)] }
        (find_capability "translate_text" exReg)).1
      = some
        { name := "translate_text", version := "1.0.0",
          action_schema := some "/translate/text",
          estimated_cost := some [("estimate", 5)], latency_p99_ms := some 850 }
    ∧ (negotiate_capability
        { name := "translate_text", constraints := some [("max_latency_ms", 0)] }
        (find_capability "translate_text" exReg)).1.isSome = true
    ∧ (negotiate_capability
        { name := "translate_text", constraints := some [("max_latency_ms", 400)] }
        (find_capability "translate_text" exReg)).2.isSome = true :=
  ⟨rfl, rfl, rfl⟩

/-- C4: a wanted capability whose name is not found in the catalog is never
accepted and is rejected with reason capability_not_found, regardless of
its version constraint or other constraints. -/
theorem c4_not_found_rejected (w : WantedCapability)
    (registry : List RegisteredCapability)
    (h : find_capability w.name registry = none) :
    (negotiate_capability w (find_capability w.name registry)).1 = none
    ∧ ((negotiate_capability w (find_capability w.name registry)).2.map
        (fun r => r.reason)) = some "capability_not_found" := by
  rw [h]
  exact ⟨rfl, rfl⟩

/-- Witness for C4: a concrete wanted capability carrying both a version
constraint and a latency constraint, against the empty catalog. -/
theorem c4_witness :
    (negotiate_capability c4w (find_capability c4w.name [])).1 = none
    ∧ ((negotiate_capability c4w (find_capability c4w.name [])).2.map
        (fun r => r.reason)) = some "capability_not_found" :=
  c4_not_found_rejected c4w [] rfl

/-- C5: for every admissible session request, the status is accepted iff
every wanted capability was accepted and none rejected (vacuously so for an
empty wanted list), partial iff at least one was accepted and at least one
rejected, and, the wanted list being non-empty, rejected iff zero were
accepted. -/
theorem c5_status_aggregation (config : AgentConfig)
    (registry : List RegisteredCapability) (iat exp : String)
    (request : SessionRequest) (resp : SessionResponse)
    (h : session_endpoint config registry iat exp request = Except.ok resp) :
    (resp.status = "accepted" ↔
      resp.accepted_capabilities.length = request.wanted_capabilities.length
      ∧ resp.rejected_capabilities = [])
    ∧ (resp.status = "partial" ↔
      resp.accepted_capabilities ≠ [] ∧ resp.rejected_capabilities ≠ [])
    ∧ (request.wanted_capabilities ≠ [] →
      (resp.status = "rejected" ↔ resp.accepted_capabilities = []))
    ∧ (request.wanted_capabilities = [] → resp.status = "accepted") := by
  have hr := session_endpoint_ok config registry iat exp request resp h
  subst hr
  rw [build_response_status, build_response_accepted, build_response_rejected]
  have hspec := decide_status_spec request.wanted_capabilities.length
    (negotiate_all registry request.wanted_capabilities).1
    (negotiate_all registry request.wanted_capabilities).2
    (negotiate_all_length registry request.wanted_capabilities)
  refine ⟨hspec.1, hspec.2.1, ?_, ?_⟩
  · intro hne
    exact hspec.2.2.1 (fun h0 => hne (List.length_eq_zero.mp h0))
  · intro hemp
    exact hspec.2.2.2 (by rw [hemp]; rfl)

/-- Witness for C5: a concrete run with one accepted and one rejected
capability (a partial session). -/
theorem c5_witness :
    (respMixed.status = "accepted" ↔
      respMixed.accepted_capabilities.length = reqMixed.wanted_capabilities.length
      ∧ respMixed.rejected_capabilities = [])
    ∧ (respMixed.status = "partial" ↔
      respMixed.accepted_capabilities ≠ [] ∧ respMixed.rejected_capabilities ≠ [])
    ∧ (reqMixed.wanted_capabilities ≠ [] →
      (respMixed.status = "rejected" ↔ respMixed.accepted_capabilities = []))
    ∧ (reqMixed.wanted_capabilities = [] → respMixed.status = "accepted") :=
  c5_status_aggregation exCfg exReg "t0" "t1" reqMixed respMixed rfl

/-- C6 counterexample: a fully rejected session still carries a session
token and negotiated session parameters in the code, contradicting the
claim that both fields are absent when the status is rejected. -/
theorem c6_counterexample :
    respStatus (session_endpoint exCfg [] "t0" "t1" reqMissing) = some "rejected"
    ∧ respTokenPresent (session_endpoint exCfg [] "t0" "t1" reqMissing) = true
    ∧ respNegotiatedPresent (session_endpoint exCfg [] "t0" "t1" reqMissing) = true :=
  ⟨rfl, rfl, rfl⟩

/-- C6 (amended): the error field is present iff the status is rejected,
while session_token and negotiated_session are always populated, including
when the status is rejected. -/
theorem c6_error_iff_rejected (config : AgentConfig)
    (registry : List RegisteredCapability) (iat exp : String)
    (request : SessionRequest) (resp : SessionResponse)
    (h : session_endpoint config registry iat exp request = Except.ok resp) :
    (resp.error.isSome = true ↔ resp.status = "rejected")
    ∧ resp.session_token.isSome = true
    ∧ resp.negotiated_session.isSome = true := by
  have hr := session_endpoint_ok config registry iat exp request resp h
  subst hr
  refine ⟨?_, build_response_token config registry iat exp request, ?_⟩
  · rw [build_response_error]
    by_cases hs : (build_response config registry iat exp request).status = "rejected"
    · rw [if_pos hs]
      exact iff_of_true rfl hs
    · rw [if_neg hs]
      exact iff_of_false (by simp) hs
  · rw [build_response_negotiated]
    rfl

/-- Witness for C6 (amended) at a concrete fully rejected run. -/
theorem c6_witness :
    (respMissing.error.isSome = true ↔ respMissing.status = "rejected")
    ∧ respMissing.session_token.isSome = true
    ∧ respMissing.negotiated_session.isSome = true :=
  c6_error_iff_rejected exCfg [] "t0" "t1" reqMissing respMissing rfl

/-- C7: when the configured responder agent is not among the participants,
the endpoint fails fast with a 400 client error carrying no negotiated
response; when it is a participant, the endpoint always returns the built
response, so per-capability negotiation outcomes are never raised as
errors. -/
theorem c7_participant_validation (config : AgentConfig)
    (registry : List RegisteredCapability) (iat exp : String)
    (request : SessionRequest) :
    (config.agent_id ∉ request.participants →
      session_endpoint config registry iat exp request
        = Except.error
          { status_code := 400,
            detail := "Agent " ++ config.agent_id
              ++ " is not listed as a participant" })
    ∧ (config.agent_id ∈ request.participants →
      session_endpoint config registry iat exp request
        = Except.ok (build_response config registry iat exp request)) := by
  constructor
  · intro hab
    unfold session_endpoint
    rw [if_pos hab]
  · intro hmem
    unfold session_endpoint
    rw [if_neg (not_not_intro hmem)]

/-- Witness for C7: one concrete run with the responder missing from the
participants and one with it present. -/
theorem c7_witness :
    session_endpoint exCfg [] "t0" "t1" reqAbsent
      = Except.error
        { status_code := 400,
          detail := "Agent " ++ exCfg.agent_id ++ " is not listed as a participant" }
    ∧ session_endpoint exCfg exReg "t0" "t1" reqMixed
      = Except.ok (build_response exCfg exReg "t0" "t1" reqMixed) :=
  ⟨(c7_participant_validation exCfg [] "t0" "t1" reqAbsent).1 (by decide),
   (c7_participant_validation exCfg exReg "t0" "t1" reqMixed).2 (by decide)⟩

/-- C8 counterexample: for a requested timeout of 0 the claim demands
min(0, 180) = 0, but the code treats 0 as falsy and substitutes the server
default, negotiating 180. -/
theorem c8_counterexample :
    reqT0.timeout_seconds = some 0
    ∧ respTimeout (session_endpoint exCfg [] "t0" "t1" reqT0) = some 180
    ∧ min (0 : Int) 180 = 0 :=
  ⟨rfl, rfl, by decide⟩

/-- C8 (amended): the negotiated timeout equals min(requested, 180) whenever
the client supplies a nonzero timeout; when the timeout is omitted or is 0,
the server default 180 is used before the cap, so the result is 180. -/
theorem c8_timeout_negotiation (config : AgentConfig)
    (registry : List RegisteredCapability) (iat exp : String)
    (request : SessionRequest) (resp : SessionResponse) (ns : NegotiatedSession)
    (h : session_endpoint config registry iat exp request = Except.ok resp)
    (hns : resp.negotiated_session = some ns) :
    (request.timeout_seconds = none → ns.timeout_seconds = 180)
    ∧ (∀ v : Int, request.timeout_seconds = some v → v ≠ 0 →
        ns.timeout_seconds = min v 180)
    ∧ (request.timeout_seconds = some 0 → ns.timeout_seconds = 180) := by
  have hr := session_endpoint_ok config registry iat exp request resp h
  subst hr
  rw [build_response_negotiated] at hns
  injection hns with hns
  subst hns
  refine ⟨?_, ?_, ?_⟩
  · intro h0
    show min (orInt request.timeout_seconds 180) 180 = 180
    rw [h0]
    decide
  · intro v hv hvne
    show min (orInt request.timeout_seconds 180) 180 = min v 180
    rw [hv]
    have hb : (v != 0) = true := by simpa using hvne
    simp [orInt, truthyOptInt, hb]
  · intro h0
    show min (orInt request.timeout_seconds 180) 180 = 180
    rw [h0]
    decide

/-- Witness for C8 (amended): a requested timeout of 300 seconds is capped
to 180 by the minimum. -/
theorem c8_witness : nsT300.timeout_seconds = min 300 180 :=
  (c8_timeout_negotiation exCfg [] "t0" "t1" reqT300 respT300 nsT300 rfl rfl).2.1
    300 rfl (by decide)

/-- C9: for every admissible session request the negotiated transport is the
first entry of the client's preference order that is a member of the
responder's supported-transport set, with the default http-json (itself a
member of the supported set) when no preference matches; on the same
selection logic, preferences [grpc, http-json] against the supported set
[http-json, nats] select http-json. -/
theorem c9_transport_selection (config : AgentConfig)
    (registry : List RegisteredCapability) (iat exp : String)
    (request : SessionRequest) (resp : SessionResponse) (ns : NegotiatedSession)
    (h : session_endpoint config registry iat exp request = Except.ok resp)
    (hns : resp.negotiated_session = some ns) :
    ns.transport
      = ((request.session_preferences.transport.find?
          (fun p => supported_transports.contains p)).getD "http-json")
    ∧ select_transport ["http-json", "nats"] "http-json" ["grpc", "http-json"]
      = "http-json"
    ∧ "http-json" ∈ supported_transports := by
  have hr := session_endpoint_ok config registry iat exp request resp h
  subst hr
  rw [build_response_negotiated] at hns
  injection hns with hns
  subst hns
  refine ⟨?_, by decide, by decide⟩
  show select_transport supported_transports "http-json"
      (if request.session_preferences.transport = [] then ["http-json"]
       else request.session_preferences.transport) = _
  by_cases hp : request.session_preferences.transport = []
  · rw [if_pos hp, hp]
    rfl
  · rw [if_neg hp]
    exact select_transport_eq_find supported_transports "http-json" _

/-- Witness for C9: preferences [grpc, http-json] against the responder's
hard-coded supported transports select grpc, the first supported
preference. -/
theorem c9_witness :
    nsPrefs.transport
      = ((reqPrefs.session_preferences.transport.find?
          (fun p => supported_transports.contains p)).getD "http-json")
    ∧ select_transport ["http-json", "nats"] "http-json" ["grpc", "http-json"]
      = "http-json"
    ∧ "http-json" ∈ supported_transports :=
  c9_transport_selection exCfg [] "t0" "t1" reqPrefs respPrefs nsPrefs rfl rfl

/-- C10: for every session request that passes the participant check, the
accepted and rejected outcome counts sum to the number of wanted
capabilities, and the outcome names are, as a multiset, exactly the wanted
names, each outcome carrying the name of the wanted capability it was
produced for. -/
theorem c10_outcome_conservation (config : AgentConfig)
    (registry : List RegisteredCapability) (iat exp : String)
    (request : SessionRequest) (resp : SessionResponse)
    (h : session_endpoint config registry iat exp request = Except.ok resp) :
    resp.accepted_capabilities.length + resp.rejected_capabilities.length
      = request.wanted_capabilities.length
    ∧ (resp.accepted_capabilities.map (fun a => a.name)
        ++ resp.rejected_capabilities.map (fun r => r.name)).Perm
        (request.wanted_capabilities.map (fun w => w.name)) := by
  have hr := session_endpoint_ok config registry iat exp request resp h
  subst hr
  rw [build_response_accepted, build_response_rejected]
  exact ⟨negotiate_all_length registry request.wanted_capabilities,
    negotiate_all_names_perm registry request.wanted_capabilities⟩

/-- Witness for C10 at a concrete mixed run with one accepted and one
rejected capability. -/
theorem c10_witness :
    respMixed.accepted_capabilities.length + respMixed.rejected_capabilities.length
      = reqMixed.wanted_capabilities.length
    ∧ (respMixed.accepted_capabilities.map (fun a => a.name)
        ++ respMixed.rejected_capabilities.map (fun r => r.name)).Perm
        (reqMixed.wanted_capabilities.map (fun w => w.name)) :=
  c10_outcome_conservation exCfg exReg "t0" "t1" reqMixed respMixed rfl
